import Mathlib

/-!
Shallow embedding of `src/lib/model/recycle_gan.py` (the ReCycleGAN orchestration
module) and proofs about its behaviour.

Modelling conventions:
* A tensor frame is a flat list of rationals (`Tensor := List ℚ`); `torch.cat(_, dim = 1)`
  on frames of rank BCHW is channel-wise concatenation, modelled by list append.
* The sub-networks (`SpatialTranslationModel`, `TemporalPredictorModel`, `Discriminator`)
  are defined in modules that are not part of the excerpt; their internals are out of
  scope, so each is modelled as a record holding its construction parameters together
  with an abstract transfer function.
* `.to(device)`, `.float()` and `.detach()` do not change tensor values; the first two
  are dropped and `detach` is kept as an explicit identity to mirror the source.
* Autograd calls (`zero_grad`, `loss.backward`, `step`) are recorded as events in a
  trace so that the optimisation schedule is observable.
-/

abbrev Tensor : Type := List ℚ

/-- Pointwise tensor addition (`x + y` on same-shape torch tensors). -/
def tAdd (x y : Tensor) : Tensor := List.zipWith (fun a b => a + b) x y

/-- Scalar multiplication (`c * x` on torch tensors). -/
def tScale (c : ℚ) (x : Tensor) : Tensor := x.map (fun a => c * a)

/-- Value-level meaning of `tensor.detach()`: the same values, gradient flow cut. -/
def detach (x : Tensor) : Tensor := x

/-- Channel-wise concatenation of a list of frames, `torch.cat(frames, dim = 1)`. -/
def catList (xs : List Tensor) : Tensor := xs.flatten

/-- Channel-wise concatenation of the slice `frames[a : b]`, as used for tuples. -/
def sliceCat (l : List Tensor) (a b : Nat) : Tensor := catList ((l.drop a).take (b - a))

/-- Mean squared error, the semantics of `torch.nn.MSELoss()` (mean reduction). -/
def mseLoss (x y : Tensor) : ℚ :=
  ((List.zipWith (fun a b => (a - b) ^ 2) x y).sum) / (x.length : ℚ)

/-- Spatial translation generator, `lib.model.spatial_translation.SpatialTranslationModel`.
Modelled from the spec: its internal architecture is out of scope, so it is a record of
the constructor arguments `n_in`, `n_out`, `r` plus an abstract transfer function. -/
structure SpatialTranslationModel where
  n_in : Nat
  n_out : Nat
  r : Nat
  apply : Tensor → Tensor

/-- Temporal predictor, `lib.model.temporal_predictor.TemporalPredictorModel`.
Modelled from the spec: internal architecture out of scope, kept abstract. -/
structure TemporalPredictorModel where
  n_in : Nat
  n_out : Nat
  r : Nat
  apply : Tensor → Tensor

/-- Discriminator, `lib.model.discriminator.Discriminator`.
Modelled from the spec: internal architecture out of scope, kept abstract. -/
structure Discriminator where
  n_in : Nat
  r : Nat
  apply : Tensor → Tensor

/-- Replay buffer, `lib.buffer.ReplayBuffer`.
Modelled from the spec: `lib/buffer.py` is not part of the excerpt; the spec describes
it as a simple bounded FIFO/random-replace cache. The random draws are supplied as a
pre-drawn stream `coins` of (replace?, index) choices consumed by `push_and_pop`. -/
structure ReplayBuffer where
  max_size : Nat
  data : List Tensor
  coins : List (Bool × Nat)
deriving DecidableEq

/-- A fresh replay buffer with capacity 50 and a given stream of random choices. -/
def ReplayBuffer.init (coins : List (Bool × Nat)) : ReplayBuffer :=
  ⟨50, [], coins⟩

/-- Push a frame into the buffer and pop a frame to hand to the discriminator.
While the buffer is not full the pushed frame itself comes back; once full, a random
draw either swaps the frame for a stored one or returns it unchanged. -/
def ReplayBuffer.push_and_pop (buf : ReplayBuffer) (x : Tensor) : Tensor × ReplayBuffer :=
  if buf.data.length < buf.max_size then
    (x, { buf with data := buf.data ++ [x] })
  else
    match buf.coins with
    | [] => (x, buf)
    | (replace, j) :: rest =>
      if replace then
        (buf.data.getD (j % buf.data.length) x,
         { buf with data := buf.data.set (j % buf.data.length) x, coins := rest })
      else
        (x, { buf with coins := rest })

/-- Tags naming the six trainable sub-modules of the model. -/
inductive NetTag where
  | g_a_to_b
  | g_b_to_a
  | p_a
  | p_b
  | d_a
  | d_b
deriving DecidableEq

/-- The optimiser algorithm chosen by the constructor. -/
inductive OptimKind where
  | adam
deriving DecidableEq

/-- Configuration of one optimiser: algorithm, the chained parameter groups
(`itertools.chain(...)` over module parameters), and the learning rate. -/
structure OptimizerSpec where
  kind : OptimKind
  params : List NetTag
  lr : ℚ
deriving DecidableEq

/-- Autograd/optimiser calls issued by `backward`, recorded as a trace. -/
inductive OptimEvent where
  | zero_grad (o : OptimizerSpec)
  | step (o : OptimizerSpec)
deriving DecidableEq

/-- The optimisers stepped in a trace, in order. -/
def stepsOf (tr : List OptimEvent) : List OptimizerSpec :=
  tr.filterMap (fun e => match e with
    | .step o => some o
    | .zero_grad _ => none)

/-- State of the `ReCycleGAN` module: the stored scalars `t` and `T`, the six
sub-networks, the two loss criteria, the two optimiser configurations, the two replay
buffers, and the input sequences stored by `setInput`. -/
structure ReCycleGAN where
  t : Nat
  T : Nat
  G_A_to_B : SpatialTranslationModel
  G_B_to_A : SpatialTranslationModel
  P_A : TemporalPredictorModel
  P_B : TemporalPredictorModel
  D_A : Discriminator
  D_B : Discriminator
  criterion_adv : Tensor → Bool → ℚ
  criterion_l2 : Tensor → Tensor → ℚ
  optim_G : OptimizerSpec
  optim_D : OptimizerSpec
  fake_a_buffer : ReplayBuffer
  fake_b_buffer : ReplayBuffer
  true_a_seq : List Tensor
  true_b_seq : List Tensor

/-- The constructor `ReCycleGAN.__init__`. The network weights are abstract, so the
learned transfer functions (`gAB`, `gBA`, `pA`, `pB`, `dA`, `dB`), the adversarial
criterion `adv` (`lib.loss.GANLoss`, not part of the excerpt) and the random streams of
the two replay buffers are taken as parameters; everything else follows the source:
`self.t = t`, `self.T = T + self.t`, the six networks with their channel arguments, the
MSE criterion, the two Adam optimisers and the two fresh buffers. -/
def ReCycleGAN.init (A_channel B_channel T t r : Nat)
    (gAB gBA pA pB dA dB : Tensor → Tensor)
    (adv : Tensor → Bool → ℚ)
    (coinsA coinsB : List (Bool × Nat)) : ReCycleGAN :=
  { t := t
    T := T + t
    G_A_to_B := ⟨A_channel, B_channel, r, gAB⟩
    G_B_to_A := ⟨B_channel, A_channel, r, gBA⟩
    P_A := ⟨t * A_channel, A_channel, r, pA⟩
    P_B := ⟨t * B_channel, B_channel, r, pB⟩
    D_A := ⟨A_channel, r, dA⟩
    D_B := ⟨B_channel, r, dB⟩
    criterion_adv := adv
    criterion_l2 := mseLoss
    optim_G := ⟨.adam, [.g_a_to_b, .g_b_to_a, .p_a, .p_b], 1 / 1000⟩
    optim_D := ⟨.adam, [.d_a, .d_b], 1 / 10000⟩
    fake_a_buffer := ReplayBuffer.init coinsA
    fake_b_buffer := ReplayBuffer.init coinsB
    true_a_seq := []
    true_b_seq := [] }

/-- `ReCycleGAN.setInput`: store the two input sequences (`.float().to(device)` is the
identity on values). -/
def ReCycleGAN.setInput (m : ReCycleGAN) (a b : List Tensor) : ReCycleGAN :=
  { m with true_a_seq := a, true_b_seq := b }

/-- `ReCycleGAN.updateGenerator`: the generator/predictor loss for one step. -/
def ReCycleGAN.updateGenerator (m : ReCycleGAN)
    (true_x_tuple fake_y_tuple true_x_next fake_y_next : Tensor)
    (P_X P_Y : TemporalPredictorModel) (net_Y_to_X : SpatialTranslationModel)
    (net_D : Discriminator) : ℚ :=
  let fake_x_next := P_X.apply true_x_tuple
  let reco_x_next := net_Y_to_X.apply (P_Y.apply fake_y_tuple)
  let fake_pred := net_D.apply fake_y_next
  m.criterion_adv fake_pred true
    + m.criterion_l2 reco_x_next true_x_next * 10
    + m.criterion_l2 fake_x_next true_x_next * 10

/-- `ReCycleGAN.updateDiscriminator`: the discriminator loss for one frame pair. -/
def ReCycleGAN.updateDiscriminator (m : ReCycleGAN)
    (fake_frame true_frame : Tensor) (net_D : Discriminator) : ℚ :=
  let fake_pred := net_D.apply (detach fake_frame)
  let true_pred := net_D.apply true_frame
  m.criterion_adv true_pred true + m.criterion_adv fake_pred false

/-- The rendered-image dictionary returned by `forward`, as a key/value list so that
the exact key set and order of the Python dict literal are preserved. -/
abbrev RenderDict : Type := List (String × Option Tensor)

/-- Look a key up in a rendered dictionary. -/
def dictGet (d : RenderDict) (k : String) : Option (Option Tensor) :=
  match d with
  | [] => none
  | (k0, v) :: rest => if k0 = k then some v else dictGet rest k

/-- Does an `Except` hold a value (the call returned instead of raising)? -/
def exceptOk {ε α : Type} : Except ε α → Bool
  | .ok _ => true
  | .error _ => false

/-- The per-tuple translated sequence built inside `forward` for domain A:
`torch.cat([G_A_to_B(true_a_seq[i]) for i in range(t)], dim = 1)`. -/
def ReCycleGAN.fakeTupleAtoB (m : ReCycleGAN) (sa : List Tensor) : Tensor :=
  catList ((sa.take m.t).map m.G_A_to_B.apply)

/-- The per-tuple translated sequence built inside `forward` for domain B. -/
def ReCycleGAN.fakeTupleBtoA (m : ReCycleGAN) (sb : List Tensor) : Tensor :=
  catList ((sb.take m.t).map m.G_B_to_A.apply)

/-- The domain-A branch of `forward` (lines guarded by
`if true_a is not None and true_a_seq is not None`). Returns the five domain-A entries
of the result dict, or the exception message. Indexing `true_a_seq[i]` for
`i in range(self.t)` raises `IndexError` when the sequence has fewer than `t` frames. -/
def ReCycleGAN.forwardDomainA (m : ReCycleGAN)
    (true_a : Option Tensor) (true_a_seq : Option (List Tensor)) :
    Except String (Option Tensor × Option Tensor × Option Tensor × Option Tensor × Option Tensor) :=
  match true_a, true_a_seq with
  | some a, some sa =>
    if m.t ≤ sa.length then
      let fake_b_tuple := m.fakeTupleAtoB sa
      let true_a_tuple := catList sa
      let fake_b_spat := m.G_A_to_B.apply a
      let fake_b_temp := m.P_B.apply fake_b_tuple
      let fake_b := tScale (1 / 2) (tAdd fake_b_spat fake_b_temp)
      let reco_a := tScale (1 / 2)
        (tAdd (m.G_B_to_A.apply (m.P_B.apply fake_b_tuple)) (m.P_A.apply true_a_tuple))
      .ok (some a, some fake_b_spat, some fake_b_temp, some fake_b, some reco_a)
    else
      .error "IndexError: list index out of range"
  | none, none => .ok (none, none, none, none, none)
  | _, _ =>
    .error "You should make sure to fill the both input if you want to utilize domain A!"

/-- The domain-B branch of `forward`, symmetric to `forwardDomainA`. -/
def ReCycleGAN.forwardDomainB (m : ReCycleGAN)
    (true_b : Option Tensor) (true_b_seq : Option (List Tensor)) :
    Except String (Option Tensor × Option Tensor × Option Tensor × Option Tensor × Option Tensor) :=
  match true_b, true_b_seq with
  | some b, some sb =>
    if m.t ≤ sb.length then
      let fake_a_tuple := m.fakeTupleBtoA sb
      let true_b_tuple := catList sb
      let fake_a_spat := m.G_B_to_A.apply b
      let fake_a_temp := m.P_A.apply fake_a_tuple
      let fake_a := tScale (1 / 2) (tAdd fake_a_spat fake_a_temp)
      let reco_b := tScale (1 / 2)
        (tAdd (m.G_A_to_B.apply (m.P_A.apply fake_a_tuple)) (m.P_B.apply true_b_tuple))
      .ok (some b, some fake_a_spat, some fake_a_temp, some fake_a, some reco_b)
    else
      .error "IndexError: list index out of range"
  | none, none => .ok (none, none, none, none, none)
  | _, _ =>
    .error "You should make sure to fill the both input if you want to utilize domain B!"

/-- `ReCycleGAN.forward`: the inference pass. Raising an exception is modelled by the
`.error` constructor; the returned dict keeps the key order of the source literal. -/
def ReCycleGAN.forward (m : ReCycleGAN)
    (true_a true_b : Option Tensor)
    (true_a_seq true_b_seq : Option (List Tensor)) : Except String RenderDict :=
  if true_a = none ∧ true_b = none ∧ true_a_seq = none ∧ true_b_seq = none then
    .error "The input are all None. You should at least assign the input of one domain !"
  else
    match m.forwardDomainA true_a true_a_seq with
    | .error e => .error e
    | .ok (ta, fbs, fbt, fb, ra) =>
      match m.forwardDomainB true_b true_b_seq with
      | .error e => .error e
      | .ok (tb, fas, fat, fa, rb) =>
        .ok [("true_a", ta),
             ("fake_b_spat", fbs),
             ("fake_b_temp", fbt),
             ("fake_b", fb),
             ("reco_a", ra),
             ("true_b", tb),
             ("fake_a_spat", fas),
             ("fake_a_temp", fat),
             ("fake_a", fa),
             ("reco_b", rb)]

/-- The body of the loss-accumulation loop `for i in range(self.t, self.T)` of
`backward`, threading `(loss_G, loss_D, fake_a_buffer, fake_b_buffer)` through the
given index list. `ta`, `tb` are the true frame lists and `fb`, `fa` the lists of
translated (fake) frames. -/
def ReCycleGAN.backwardAccum (m : ReCycleGAN) (ta tb fb fa : List Tensor) :
    List Nat → ℚ × ℚ × ReplayBuffer × ReplayBuffer → ℚ × ℚ × ReplayBuffer × ReplayBuffer
  | [], acc => acc
  | i :: rest, (lg, ld, bufA, bufB) =>
    let true_a_tuple := detach (sliceCat ta (i - m.t) i)
    let fake_b_tuple := detach (sliceCat fb (i - m.t) i)
    let true_b_tuple := detach (sliceCat tb (i - m.t) i)
    let fake_a_tuple := detach (sliceCat fa (i - m.t) i)
    let lg1 := lg + m.updateGenerator true_a_tuple fake_b_tuple
      (ta.getD i []) (tb.getD i []) m.P_A m.P_B m.G_B_to_A m.D_B
    let lg2 := lg1 + m.updateGenerator true_b_tuple fake_a_tuple
      (tb.getD i []) (ta.getD i []) m.P_B m.P_A m.G_A_to_B m.D_A
    let pb := bufB.push_and_pop (fb.getD i [])
    let pa := bufA.push_and_pop (fa.getD i [])
    let ld1 := ld + m.updateDiscriminator pb.1 (tb.getD i []) m.D_B
    let ld2 := ld1 + m.updateDiscriminator pa.1 (ta.getD i []) m.D_A
    m.backwardAccum ta tb fb fa rest (lg2, ld2, pa.2, pb.2)

/-- `ReCycleGAN.backward`: the training pass. `torch.chunk(seq, self.T, dim = 1)`
followed by `squeeze(1)` splits the stored rank-5 sequence into its `self.T` frames,
modelled by `List.take self.T`. Returns the module with updated buffers, the two
accumulated losses, and the trace of optimiser events. -/
def ReCycleGAN.backward (m : ReCycleGAN) : ReCycleGAN × ℚ × ℚ × List OptimEvent :=
  let true_a_frame_list := m.true_a_seq.take m.T
  let true_b_frame_list := m.true_b_seq.take m.T
  let fake_b_frame_list :=
    (List.range m.T).map (fun i => m.G_A_to_B.apply (true_a_frame_list.getD i []))
  let fake_a_frame_list :=
    (List.range m.T).map (fun i => m.G_B_to_A.apply (true_b_frame_list.getD i []))
  let acc := m.backwardAccum true_a_frame_list true_b_frame_list
    fake_b_frame_list fake_a_frame_list
    (List.range' m.t (m.T - m.t)) (0, 0, m.fake_a_buffer, m.fake_b_buffer)
  ({ m with fake_a_buffer := acc.2.2.1, fake_b_buffer := acc.2.2.2 },
   acc.1, acc.2.1,
   [.zero_grad m.optim_G, .step m.optim_G, .zero_grad m.optim_D, .step m.optim_D])

/-- The discriminator-side projection of the accumulation loop: the same per-step
`push_and_pop` and `updateDiscriminator` calls as `backwardAccum`, threading only
`(loss_D, fake_a_buffer, fake_b_buffer)`. Used to state how `backward` decomposes. -/
def discAccum (m : ReCycleGAN) (ta tb fb fa : List Tensor) :
    List Nat → ℚ × ReplayBuffer × ReplayBuffer → ℚ × ReplayBuffer × ReplayBuffer
  | [], acc => acc
  | i :: rest, (ld, bufA, bufB) =>
    let pb := bufB.push_and_pop (fb.getD i [])
    let pa := bufA.push_and_pop (fa.getD i [])
    discAccum m ta tb fb fa rest
      (ld + m.updateDiscriminator pb.1 (tb.getD i []) m.D_B
          + m.updateDiscriminator pa.1 (ta.getD i []) m.D_A,
       pa.2, pb.2)

/-- The generator-side contribution of one accumulated time step `i`: the two
`updateGenerator` calls (A-to-B direction, then B-to-A direction) of the loop body. -/
def genStep (m : ReCycleGAN) (ta tb fb fa : List Tensor) (i : Nat) : ℚ :=
  m.updateGenerator (detach (sliceCat ta (i - m.t) i)) (detach (sliceCat fb (i - m.t) i))
      (ta.getD i []) (tb.getD i []) m.P_A m.P_B m.G_B_to_A m.D_B
    + m.updateGenerator (detach (sliceCat tb (i - m.t) i)) (detach (sliceCat fa (i - m.t) i))
      (tb.getD i []) (ta.getD i []) m.P_B m.P_A m.G_A_to_B m.D_A

/-- A concrete instantiation used to evaluate the development on explicit inputs:
one channel per domain, `T = 1`, `t = 1`, identity translators and discriminators, a
summing predictor for domain A, and a sum-based adversarial criterion. -/
def sampleModel : ReCycleGAN :=
  ReCycleGAN.init 1 1 1 1 1
    (fun x => x) (fun x => x)
    (fun x => [x.sum]) (fun x => x)
    (fun x => x) (fun x => x)
    (fun x b => if b then x.sum else -x.sum)
    [] []

/-- Helper: unfolding one step of the accumulation loop of `backward`. -/
theorem backwardAccum_cons (m : ReCycleGAN) (ta tb fb fa : List Tensor)
    (i : Nat) (rest : List Nat) (lg ld : ℚ) (bufA bufB : ReplayBuffer) :
    m.backwardAccum ta tb fb fa (i :: rest) (lg, ld, bufA, bufB) =
      m.backwardAccum ta tb fb fa rest
        (lg + m.updateGenerator (detach (sliceCat ta (i - m.t) i)) (detach (sliceCat fb (i - m.t) i))
            (ta.getD i []) (tb.getD i []) m.P_A m.P_B m.G_B_to_A m.D_B
          + m.updateGenerator (detach (sliceCat tb (i - m.t) i)) (detach (sliceCat fa (i - m.t) i))
            (tb.getD i []) (ta.getD i []) m.P_B m.P_A m.G_A_to_B m.D_A,
         ld + m.updateDiscriminator (bufB.push_and_pop (fb.getD i [])).1 (tb.getD i []) m.D_B
          + m.updateDiscriminator (bufA.push_and_pop (fa.getD i [])).1 (ta.getD i []) m.D_A,
         (bufA.push_and_pop (fa.getD i [])).2,
         (bufB.push_and_pop (fb.getD i [])).2) := rfl

/-- Claim C1: the constructor builds exactly the two spatial translation generators
(`G_A_to_B : A_channel → B_channel`, `G_B_to_A : B_channel → A_channel`), the two
temporal predictors (`P_A` with `t * A_channel` input channels, `P_B` with
`t * B_channel`), the two discriminators (`D_A` over `A_channel`, `D_B` over
`B_channel`), and the two fresh replay buffers. -/
theorem recycle_init_components (A_channel B_channel T t r : Nat)
    (gAB gBA pA pB dA dB : Tensor → Tensor) (adv : Tensor → Bool → ℚ)
    (coinsA coinsB : List (Bool × Nat)) :
    let m := ReCycleGAN.init A_channel B_channel T t r gAB gBA pA pB dA dB adv coinsA coinsB
    m.G_A_to_B.n_in = A_channel ∧ m.G_A_to_B.n_out = B_channel ∧
    m.G_B_to_A.n_in = B_channel ∧ m.G_B_to_A.n_out = A_channel ∧
    m.P_A.n_in = t * A_channel ∧ m.P_A.n_out = A_channel ∧
    m.P_B.n_in = t * B_channel ∧ m.P_B.n_out = B_channel ∧
    m.D_A.n_in = A_channel ∧ m.D_B.n_in = B_channel ∧
    m.fake_a_buffer = ReplayBuffer.init coinsA ∧
    m.fake_b_buffer = ReplayBuffer.init coinsB :=
  ⟨rfl, rfl, rfl, rfl, rfl, rfl, rfl, rfl, rfl, rfl, rfl, rfl⟩

/-- Claim C2: for a module built by the constructor, `updateGenerator` returns the
adversarial loss of `net_D(fake_y_next)` against the real target, plus ten times the
mean squared error between `net_Y_to_X(P_Y(fake_y_tuple))` and `true_x_next`, plus ten
times the mean squared error between `P_X(true_x_tuple)` and `true_x_next`. -/
theorem updateGenerator_loss_formula (A_channel B_channel T t r : Nat)
    (gAB gBA pA pB dA dB : Tensor → Tensor) (adv : Tensor → Bool → ℚ)
    (coinsA coinsB : List (Bool × Nat))
    (true_x_tuple fake_y_tuple true_x_next fake_y_next : Tensor)
    (P_X P_Y : TemporalPredictorModel) (net_Y_to_X : SpatialTranslationModel)
    (net_D : Discriminator) :
    (ReCycleGAN.init A_channel B_channel T t r gAB gBA pA pB dA dB adv coinsA
        coinsB).updateGenerator true_x_tuple fake_y_tuple true_x_next fake_y_next
          P_X P_Y net_Y_to_X net_D =
      adv (net_D.apply fake_y_next) true
        + 10 * mseLoss (net_Y_to_X.apply (P_Y.apply fake_y_tuple)) true_x_next
        + 10 * mseLoss (P_X.apply true_x_tuple) true_x_next := by
  simp only [ReCycleGAN.updateGenerator, ReCycleGAN.init]
  ring

/-- Claim C3: for a module built by the constructor, `updateDiscriminator` returns the
adversarial loss of `net_D(true_frame)` against the real target plus the adversarial
loss of `net_D` applied to the detached `fake_frame` against the fake target. -/
theorem updateDiscriminator_loss_formula (A_channel B_channel T t r : Nat)
    (gAB gBA pA pB dA dB : Tensor → Tensor) (adv : Tensor → Bool → ℚ)
    (coinsA coinsB : List (Bool × Nat))
    (fake_frame true_frame : Tensor) (net_D : Discriminator) :
    (ReCycleGAN.init A_channel B_channel T t r gAB gBA pA pB dA dB adv coinsA
        coinsB).updateDiscriminator fake_frame true_frame net_D =
      adv (net_D.apply true_frame) true + adv (net_D.apply (detach fake_frame)) false :=
  rfl

/-- Claim C7: the optimisation schedule of the constructor is exactly two optimisers: Adam
over the chained parameters of `G_A_to_B`, `G_B_to_A`, `P_A`, `P_B` at learning rate
0.001, and Adam over the chained parameters of `D_A` and `D_B` at learning rate 0.0001;
every `backward` run steps the former once and then the latter once. -/
theorem optimizer_partition (A_channel B_channel T t r : Nat)
    (gAB gBA pA pB dA dB : Tensor → Tensor) (adv : Tensor → Bool → ℚ)
    (coinsA coinsB : List (Bool × Nat)) (a b : List Tensor) :
    let m := ReCycleGAN.init A_channel B_channel T t r gAB gBA pA pB dA dB adv coinsA coinsB
    m.optim_G = ⟨OptimKind.adam,
        [NetTag.g_a_to_b, NetTag.g_b_to_a, NetTag.p_a, NetTag.p_b], 1 / 1000⟩ ∧
    m.optim_D = ⟨OptimKind.adam, [NetTag.d_a, NetTag.d_b], 1 / 10000⟩ ∧
    stepsOf ((m.setInput a b).backward.2.2.2) = [m.optim_G, m.optim_D] :=
  ⟨rfl, rfl, rfl⟩

/-- Helper: the accumulation loop of `backward` decomposes into the sum of the
per-step generator contributions and the discriminator-side fold. -/
theorem backwardAccum_split (m : ReCycleGAN) (ta tb fb fa : List Tensor)
    (l : List Nat) (lg ld : ℚ) (bufA bufB : ReplayBuffer) :
    m.backwardAccum ta tb fb fa l (lg, ld, bufA, bufB) =
      (lg + (l.map (genStep m ta tb fb fa)).sum,
       discAccum m ta tb fb fa l (ld, bufA, bufB)) := by
  induction l generalizing lg ld bufA bufB with
  | nil => simp [ReCycleGAN.backwardAccum, discAccum]
  | cons i rest ih =>
    rw [backwardAccum_cons, ih]
    simp only [Prod.mk.injEq, List.map_cons, List.sum_cons, genStep, discAccum]
    exact ⟨by ring, trivial⟩

/-- Claim C4: `backward` splits each stored sequence into `self.T` frames, translates
every frame to the opposite domain, accumulates at each time step from `self.t` to
`self.T - 1` the generator losses of both domain directions and the discriminator
losses of both domains, and then issues exactly one optimiser step for the joint
generator/predictor optimiser followed by exactly one for the joint discriminator
optimiser. -/
theorem backward_loss_and_schedule (m : ReCycleGAN) :
    let ta := m.true_a_seq.take m.T
    let tb := m.true_b_seq.take m.T
    let fb := (List.range m.T).map (fun i => m.G_A_to_B.apply (ta.getD i []))
    let fa := (List.range m.T).map (fun i => m.G_B_to_A.apply (tb.getD i []))
    m.backward.2.1 = ((List.range' m.t (m.T - m.t)).map (genStep m ta tb fb fa)).sum ∧
    m.backward.2.2.1 =
      (discAccum m ta tb fb fa (List.range' m.t (m.T - m.t))
        (0, m.fake_a_buffer, m.fake_b_buffer)).1 ∧
    stepsOf m.backward.2.2.2 = [m.optim_G, m.optim_D] := by
  intro ta tb fb fa
  have h := backwardAccum_split m ta tb fb fa (List.range' m.t (m.T - m.t))
    0 0 m.fake_a_buffer m.fake_b_buffer
  refine ⟨?_, ?_, rfl⟩
  · calc m.backward.2.1
        = (m.backwardAccum ta tb fb fa (List.range' m.t (m.T - m.t))
            (0, 0, m.fake_a_buffer, m.fake_b_buffer)).1 := rfl
      _ = 0 + ((List.range' m.t (m.T - m.t)).map (genStep m ta tb fb fa)).sum := by rw [h]
      _ = _ := by ring
  · calc m.backward.2.2.1
        = (m.backwardAccum ta tb fb fa (List.range' m.t (m.T - m.t))
            (0, 0, m.fake_a_buffer, m.fake_b_buffer)).2.1 := rfl
      _ = (discAccum m ta tb fb fa (List.range' m.t (m.T - m.t))
            (0, m.fake_a_buffer, m.fake_b_buffer)).1 := by rw [h]

/-- Claim C6: at every accumulated time step of `backward`, the per-domain
discriminator loss is computed on the frame obtained from the replay buffer of that domain
via `push_and_pop` applied to the current fake frame, while the generator losses of
the same step take the true and fake frames directly (never through the buffer). -/
theorem backward_buffer_routing (m : ReCycleGAN) (ta tb fb fa : List Tensor)
    (i : Nat) (rest : List Nat) (lg ld : ℚ) (bufA bufB : ReplayBuffer) :
    m.backwardAccum ta tb fb fa (i :: rest) (lg, ld, bufA, bufB) =
      m.backwardAccum ta tb fb fa rest
        (lg + genStep m ta tb fb fa i,
         ld + m.updateDiscriminator (bufB.push_and_pop (fb.getD i [])).1
              (tb.getD i []) m.D_B
            + m.updateDiscriminator (bufA.push_and_pop (fa.getD i [])).1
              (ta.getD i []) m.D_A,
         (bufA.push_and_pop (fa.getD i [])).2,
         (bufB.push_and_pop (fb.getD i [])).2) := by
  rw [backwardAccum_cons]
  refine congrArg _ ?_
  simp only [Prod.mk.injEq, genStep]
  exact ⟨by ring, trivial⟩

/-- Claim C10: the constructor stores `self.t = t` and `self.T = T + t` (not
`T + t - 1`); `setInput` and `backward` leave both fields untouched (`forward`,
`updateGenerator` and `updateDiscriminator` assign no module state at all, so they are
pure functions in this embedding); consequently `backward` splits a stored sequence of
matching length into `T + t` frames and its loss loop runs over exactly `T` steps. -/
theorem t_T_invariant (A_channel B_channel T0 t0 r : Nat)
    (gAB gBA pA pB dA dB : Tensor → Tensor) (adv : Tensor → Bool → ℚ)
    (coinsA coinsB : List (Bool × Nat)) (a b : List Tensor) (m : ReCycleGAN) :
    let m0 := ReCycleGAN.init A_channel B_channel T0 t0 r gAB gBA pA pB dA dB adv
      coinsA coinsB
    m0.t = t0 ∧ m0.T = T0 + t0 ∧
    (m.setInput a b).t = m.t ∧ (m.setInput a b).T = m.T ∧
    m.backward.1.t = m.t ∧ m.backward.1.T = m.T ∧
    (a.length = m0.T →
      ((m0.setInput a b).true_a_seq.take (m0.setInput a b).T).length = T0 + t0) ∧
    (b.length = m0.T →
      ((m0.setInput a b).true_b_seq.take (m0.setInput a b).T).length = T0 + t0) ∧
    (List.range' m0.t (m0.T - m0.t)).length = T0 := by
  intro m0
  have hT : m0.T = T0 + t0 := rfl
  have ht : m0.t = t0 := rfl
  refine ⟨rfl, rfl, rfl, rfl, rfl, rfl, ?_, ?_, ?_⟩
  · intro h
    simp [ReCycleGAN.setInput, List.length_take, h, hT]
  · intro h
    simp [ReCycleGAN.setInput, List.length_take, h, hT]
  · simp [List.length_range', hT, ht]

/-- Concrete run of `t_T_invariant`: with `T = 1`, `t = 1` and a stored sequence of
two frames, `backward` splits it into `1 + 1 = 2` frames. -/
theorem t_T_invariant_witness :
    ((sampleModel.setInput [[1], [2]] [[3], [4]]).true_a_seq.take
      (sampleModel.setInput [[1], [2]] [[3], [4]]).T).length = 2 :=
  (t_T_invariant 1 1 1 1 1 (fun x => x) (fun x => x) (fun x => [x.sum]) (fun x => x)
    (fun x => x) (fun x => x) (fun x b => if b then x.sum else -x.sum) [] []
    [[1], [2]] [[3], [4]] sampleModel).2.2.2.2.2.2.1 rfl

/-- Counterexample to claim C8 as stated: with tuple size `t = 1`, the call
`forward(true_a, true_a_seq = [])` has both input pairs consistent and is not the
all-`None` case, yet `forward` raises (the per-frame indexing loop runs out of
frames) instead of returning a dict. -/
theorem forward_short_sequence_raises :
    ¬(some ([1] : Tensor) = none ∧ (none : Option Tensor) = none ∧
      some ([] : List Tensor) = none ∧ (none : Option (List Tensor)) = none) ∧
    ((some ([1] : Tensor) = none) ↔ (some ([] : List Tensor) = none)) ∧
    (((none : Option Tensor) = none) ↔ ((none : Option (List Tensor)) = none)) ∧
    exceptOk (sampleModel.forward (some [1]) none (some []) none) = false := by
  refine ⟨by simp, by simp, by simp, rfl⟩

/-- Claim C8 (amended): `forward` raises when all four inputs are `None`, when exactly
one of `(true_a, true_a_seq)` is `None`, and when that pair is consistent but exactly
one of `(true_b, true_b_seq)` is `None`; in every other case it returns a dict without
raising, provided each supplied sequence holds at least `t` frames (a shorter sequence
makes the frame-indexing loop raise). -/
theorem forward_exception_cases (m : ReCycleGAN) (ta tb : Option Tensor)
    (tas tbs : Option (List Tensor)) :
    ((ta = none ∧ tb = none ∧ tas = none ∧ tbs = none) →
      exceptOk (m.forward ta tb tas tbs) = false) ∧
    (¬((ta = none) ↔ (tas = none)) → exceptOk (m.forward ta tb tas tbs) = false) ∧
    (((ta = none) ↔ (tas = none)) → ¬((tb = none) ↔ (tbs = none)) →
      exceptOk (m.forward ta tb tas tbs) = false) ∧
    (((ta = none) ↔ (tas = none)) → ((tb = none) ↔ (tbs = none)) →
      ¬(ta = none ∧ tb = none ∧ tas = none ∧ tbs = none) →
      (∀ sa, tas = some sa → m.t ≤ sa.length) →
      (∀ sb, tbs = some sb → m.t ≤ sb.length) →
      exceptOk (m.forward ta tb tas tbs) = true) := by
  refine ⟨?_, ?_, ?_, ?_⟩
  · rintro ⟨h1, h2, h3, h4⟩
    subst h1; subst h2; subst h3; subst h4
    rfl
  · intro hA
    rcases ta with _ | a <;> rcases tas with _ | sa
    · exact absurd (iff_of_true rfl rfl) hA
    · rcases tb with _ | b <;> rcases tbs with _ | sb <;> rfl
    · rcases tb with _ | b <;> rcases tbs with _ | sb <;> rfl
    · exact absurd (iff_of_false (fun h => Option.noConfusion h)
        (fun h => Option.noConfusion h)) hA
  · intro hA hB
    rcases ta with _ | a <;> rcases tas with _ | sa
    · rcases tb with _ | b <;> rcases tbs with _ | sb
      · exact absurd (iff_of_true rfl rfl) hB
      · rfl
      · rfl
      · exact absurd (iff_of_false (fun h => Option.noConfusion h)
          (fun h => Option.noConfusion h)) hB
    · exact absurd hA (fun h => Option.noConfusion (h.mp rfl))
    · exact absurd hA (fun h => Option.noConfusion (h.mpr rfl))
    · rcases tb with _ | b <;> rcases tbs with _ | sb
      · exact absurd (iff_of_true rfl rfl) hB
      · by_cases hle : m.t ≤ sa.length <;>
          simp [ReCycleGAN.forward, ReCycleGAN.forwardDomainA,
            ReCycleGAN.forwardDomainB, exceptOk, hle]
      · by_cases hle : m.t ≤ sa.length <;>
          simp [ReCycleGAN.forward, ReCycleGAN.forwardDomainA,
            ReCycleGAN.forwardDomainB, exceptOk, hle]
      · exact absurd (iff_of_false (fun h => Option.noConfusion h)
          (fun h => Option.noConfusion h)) hB
  · intro hA hB hnn hsa hsb
    rcases ta with _ | a <;> rcases tas with _ | sa
    · rcases tb with _ | b <;> rcases tbs with _ | sb
      · exact absurd ⟨rfl, rfl, rfl, rfl⟩ hnn
      · exact absurd hB (fun h => Option.noConfusion (h.mp rfl))
      · exact absurd hB (fun h => Option.noConfusion (h.mpr rfl))
      · have h2 := hsb sb rfl
        simp [ReCycleGAN.forward, ReCycleGAN.forwardDomainA,
          ReCycleGAN.forwardDomainB, exceptOk, h2]
    · exact absurd hA (fun h => Option.noConfusion (h.mp rfl))
    · exact absurd hA (fun h => Option.noConfusion (h.mpr rfl))
    · rcases tb with _ | b <;> rcases tbs with _ | sb
      · have h1 := hsa sa rfl
        simp [ReCycleGAN.forward, ReCycleGAN.forwardDomainA,
          ReCycleGAN.forwardDomainB, exceptOk, h1]
      · exact absurd hB (fun h => Option.noConfusion (h.mp rfl))
      · exact absurd hB (fun h => Option.noConfusion (h.mpr rfl))
      · have h1 := hsa sa rfl
        have h2 := hsb sb rfl
        simp [ReCycleGAN.forward, ReCycleGAN.forwardDomainA,
          ReCycleGAN.forwardDomainB, exceptOk, h1, h2]

/-- Concrete run of `forward_exception_cases`: a consistent call with one frame per
sequence returns a dict without raising. -/
theorem forward_exception_cases_witness :
    exceptOk (sampleModel.forward (some [1]) (some [5]) (some [[1]]) (some [[7]])) = true :=
  (forward_exception_cases sampleModel (some [1]) (some [5]) (some [[1]]) (some [[7]])).2.2.2
    (by simp) (by simp) (by simp)
    (fun sa hsa => by cases hsa; decide)
    (fun sb hsb => by cases hsb; decide)

/-- Claim C9: whenever `forward` returns without raising, the dict has exactly the ten
keys of the source literal in order, and the five entries of each domain are `None` exactly
when the inputs of that domain were not supplied. -/
theorem forward_dict_shape (m : ReCycleGAN) (ta tb : Option Tensor)
    (tas tbs : Option (List Tensor)) (d : RenderDict)
    (h : m.forward ta tb tas tbs = .ok d) :
    d.map Prod.fst = ["true_a", "fake_b_spat", "fake_b_temp", "fake_b", "reco_a",
      "true_b", "fake_a_spat", "fake_a_temp", "fake_a", "reco_b"] ∧
    (dictGet d "true_a" = some none ↔ (ta = none ∧ tas = none)) ∧
    (dictGet d "fake_b_spat" = some none ↔ (ta = none ∧ tas = none)) ∧
    (dictGet d "fake_b_temp" = some none ↔ (ta = none ∧ tas = none)) ∧
    (dictGet d "fake_b" = some none ↔ (ta = none ∧ tas = none)) ∧
    (dictGet d "reco_a" = some none ↔ (ta = none ∧ tas = none)) ∧
    (dictGet d "true_b" = some none ↔ (tb = none ∧ tbs = none)) ∧
    (dictGet d "fake_a_spat" = some none ↔ (tb = none ∧ tbs = none)) ∧
    (dictGet d "fake_a_temp" = some none ↔ (tb = none ∧ tbs = none)) ∧
    (dictGet d "fake_a" = some none ↔ (tb = none ∧ tbs = none)) ∧
    (dictGet d "reco_b" = some none ↔ (tb = none ∧ tbs = none)) := by
  rcases ta with _ | a <;> rcases tas with _ | sa
  · rcases tb with _ | b <;> rcases tbs with _ | sb
    · simp [ReCycleGAN.forward] at h
    · simp [ReCycleGAN.forward, ReCycleGAN.forwardDomainA,
        ReCycleGAN.forwardDomainB] at h
    · simp [ReCycleGAN.forward, ReCycleGAN.forwardDomainA,
        ReCycleGAN.forwardDomainB] at h
    · by_cases hle : m.t ≤ sb.length
      · simp [ReCycleGAN.forward, ReCycleGAN.forwardDomainA,
          ReCycleGAN.forwardDomainB, hle] at h
        subst h
        simp [dictGet]
      · simp [ReCycleGAN.forward, ReCycleGAN.forwardDomainA,
          ReCycleGAN.forwardDomainB, hle] at h
  · simp [ReCycleGAN.forward, ReCycleGAN.forwardDomainA] at h
  · simp [ReCycleGAN.forward, ReCycleGAN.forwardDomainA] at h
  · rcases tb with _ | b <;> rcases tbs with _ | sb
    · by_cases hle : m.t ≤ sa.length
      · simp [ReCycleGAN.forward, ReCycleGAN.forwardDomainA,
          ReCycleGAN.forwardDomainB, hle] at h
        subst h
        simp [dictGet]
      · simp [ReCycleGAN.forward, ReCycleGAN.forwardDomainA,
          ReCycleGAN.forwardDomainB, hle] at h
    · by_cases hle : m.t ≤ sa.length <;>
        simp [ReCycleGAN.forward, ReCycleGAN.forwardDomainA,
          ReCycleGAN.forwardDomainB, hle] at h
    · by_cases hle : m.t ≤ sa.length <;>
        simp [ReCycleGAN.forward, ReCycleGAN.forwardDomainA,
          ReCycleGAN.forwardDomainB, hle] at h
    · by_cases hle1 : m.t ≤ sa.length
      · by_cases hle2 : m.t ≤ sb.length
        · simp [ReCycleGAN.forward, ReCycleGAN.forwardDomainA,
            ReCycleGAN.forwardDomainB, hle1, hle2] at h
          subst h
          simp [dictGet]
        · simp [ReCycleGAN.forward, ReCycleGAN.forwardDomainA,
            ReCycleGAN.forwardDomainB, hle1, hle2] at h
      · simp [ReCycleGAN.forward, ReCycleGAN.forwardDomainA,
          ReCycleGAN.forwardDomainB, hle1] at h

/-- The dict returned by the sample model for a call supplying only domain A. -/
def sampleDictA : RenderDict :=
  (sampleModel.forward (some [1]) none (some [[1]]) none).toOption.getD []

/-- Concrete run of `forward_dict_shape`: a domain-A-only call returns the ten keys in
the source order. -/
theorem forward_dict_shape_witness :
    sampleDictA.map Prod.fst = ["true_a", "fake_b_spat", "fake_b_temp", "fake_b",
      "reco_a", "true_b", "fake_a_spat", "fake_a_temp", "fake_a", "reco_b"] :=
  (forward_dict_shape sampleModel (some [1]) none (some [[1]]) none sampleDictA rfl).1

/-- Counterexample to claim C5 as stated: with `t = 1` and a two-frame sequence
`true_a_seq = [[1], [2]]`, the `reco_a` returned by `forward` (which feeds `P_A` the
concatenation of ALL frames of `true_a_seq`) differs from the expression of the claim that
feeds `P_A` only the first `t` frames. -/
theorem forward_reco_first_t_refuted :
    dictGet ((sampleModel.forward (some [1]) none (some [[1], [2]]) none).toOption.getD [])
        "reco_a" ≠
      some (some (tScale (1 / 2)
        (tAdd (sampleModel.G_B_to_A.apply (sampleModel.P_B.apply
            (sampleModel.fakeTupleAtoB [[1], [2]])))
          (sampleModel.P_A.apply (catList (List.take sampleModel.t [[1], [2]])))))) := by
  norm_num [sampleModel, ReCycleGAN.init, ReCycleGAN.forward, ReCycleGAN.forwardDomainA,
    ReCycleGAN.forwardDomainB, ReCycleGAN.fakeTupleAtoB, dictGet, catList, tAdd, tScale,
    detach]
  decide

/-- Claim C5 (amended): when domain A is supplied, `fake_b` is
`0.5 * (G_A_to_B(true_a) + P_B(cat of G_A_to_B over the first t frames of true_a_seq))`
and `reco_a` is `0.5 * (G_B_to_A(P_B(that tuple)) + P_A(cat of ALL frames of
true_a_seq))` — the source concatenates the whole sequence for the predictor input,
which coincides with the first `t` frames only when the sequence holds exactly `t`
frames; symmetrically for domain B. -/
theorem forward_render_values (m : ReCycleGAN) (ta tb : Option Tensor)
    (tas tbs : Option (List Tensor)) (a b : Tensor) (sa sb : List Tensor)
    (d : RenderDict) (h : m.forward ta tb tas tbs = .ok d) :
    (ta = some a → tas = some sa →
      dictGet d "fake_b" = some (some (tScale (1 / 2)
        (tAdd (m.G_A_to_B.apply a) (m.P_B.apply (m.fakeTupleAtoB sa))))) ∧
      dictGet d "reco_a" = some (some (tScale (1 / 2)
        (tAdd (m.G_B_to_A.apply (m.P_B.apply (m.fakeTupleAtoB sa)))
          (m.P_A.apply (catList sa)))))) ∧
    (tb = some b → tbs = some sb →
      dictGet d "fake_a" = some (some (tScale (1 / 2)
        (tAdd (m.G_B_to_A.apply b) (m.P_A.apply (m.fakeTupleBtoA sb))))) ∧
      dictGet d "reco_b" = some (some (tScale (1 / 2)
        (tAdd (m.G_A_to_B.apply (m.P_A.apply (m.fakeTupleBtoA sb)))
          (m.P_B.apply (catList sb)))))) := by
  rcases ta with _ | a0 <;> rcases tas with _ | sa0
  · rcases tb with _ | b0 <;> rcases tbs with _ | sb0
    · simp [ReCycleGAN.forward] at h
    · simp [ReCycleGAN.forward, ReCycleGAN.forwardDomainA,
        ReCycleGAN.forwardDomainB] at h
    · simp [ReCycleGAN.forward, ReCycleGAN.forwardDomainA,
        ReCycleGAN.forwardDomainB] at h
    · by_cases hle : m.t ≤ sb0.length
      · simp [ReCycleGAN.forward, ReCycleGAN.forwardDomainA,
          ReCycleGAN.forwardDomainB, hle] at h
        subst h
        refine ⟨fun h1 _ => Option.noConfusion h1, fun h1 h2 => ?_⟩
        cases h1
        cases h2
        exact ⟨by simp [dictGet], by simp [dictGet]⟩
      · simp [ReCycleGAN.forward, ReCycleGAN.forwardDomainA,
          ReCycleGAN.forwardDomainB, hle] at h
  · simp [ReCycleGAN.forward, ReCycleGAN.forwardDomainA] at h
  · simp [ReCycleGAN.forward, ReCycleGAN.forwardDomainA] at h
  · rcases tb with _ | b0 <;> rcases tbs with _ | sb0
    · by_cases hle : m.t ≤ sa0.length
      · simp [ReCycleGAN.forward, ReCycleGAN.forwardDomainA,
          ReCycleGAN.forwardDomainB, hle] at h
        subst h
        refine ⟨fun h1 h2 => ?_, fun h1 _ => Option.noConfusion h1⟩
        cases h1
        cases h2
        exact ⟨by simp [dictGet], by simp [dictGet]⟩
      · simp [ReCycleGAN.forward, ReCycleGAN.forwardDomainA,
          ReCycleGAN.forwardDomainB, hle] at h
    · by_cases hle : m.t ≤ sa0.length <;>
        simp [ReCycleGAN.forward, ReCycleGAN.forwardDomainA,
          ReCycleGAN.forwardDomainB, hle] at h
    · by_cases hle : m.t ≤ sa0.length <;>
        simp [ReCycleGAN.forward, ReCycleGAN.forwardDomainA,
          ReCycleGAN.forwardDomainB, hle] at h
    · by_cases hle1 : m.t ≤ sa0.length
      · by_cases hle2 : m.t ≤ sb0.length
        · simp [ReCycleGAN.forward, ReCycleGAN.forwardDomainA,
            ReCycleGAN.forwardDomainB, hle1, hle2] at h
          subst h
          refine ⟨fun h1 h2 => ?_, fun h1 h2 => ?_⟩
          · cases h1
            cases h2
            exact ⟨by simp [dictGet], by simp [dictGet]⟩
          · cases h1
            cases h2
            exact ⟨by simp [dictGet], by simp [dictGet]⟩
        · simp [ReCycleGAN.forward, ReCycleGAN.forwardDomainA,
            ReCycleGAN.forwardDomainB, hle1, hle2] at h
      · simp [ReCycleGAN.forward, ReCycleGAN.forwardDomainA,
          ReCycleGAN.forwardDomainB, hle1] at h

/-- The dict returned by the sample model for a call supplying both domains. -/
def sampleDictBoth : RenderDict :=
  (sampleModel.forward (some [1]) (some [5]) (some [[1]]) (some [[7]])).toOption.getD []

/-- Concrete run of `forward_render_values` on the sample model. -/
theorem forward_render_values_witness :
    dictGet sampleDictBoth "fake_b" = some (some (tScale (1 / 2)
      (tAdd (sampleModel.G_A_to_B.apply [1])
        (sampleModel.P_B.apply (sampleModel.fakeTupleAtoB [[1]]))))) ∧
    dictGet sampleDictBoth "reco_a" = some (some (tScale (1 / 2)
      (tAdd (sampleModel.G_B_to_A.apply (sampleModel.P_B.apply
          (sampleModel.fakeTupleAtoB [[1]])))
        (sampleModel.P_A.apply (catList [[1]]))))) :=
  (forward_render_values sampleModel (some [1]) (some [5]) (some [[1]]) (some [[7]])
    [1] [5] [[1]] [[7]] sampleDictBoth rfl).1 rfl rfl
